import Mathlib

/-!
Shallow embedding of the coffee-machine core (resource containers, recipe,
brew / cleaning / refill policies, and the orchestrating machine), translated
from the Python sources under src/coffee_machine, together with theorems
settling the specification claims.

Python integers are modelled as Int; raised exceptions are modelled as
Except errors; `datetime.utcnow()` is modelled by an explicit `now : Int`
argument, and timestamps / timedeltas as Int.
-/

deriving instance DecidableEq for Except

/-- Errors raised by WaterTank (InvalidWaterTankConfigError,
InvalidWaterOperationError, NotEnoughWaterError). -/
inductive WaterError where
  | invalidConfig
  | invalidOperation
  | notEnoughWater
  deriving DecidableEq, Repr

/-- Result status of WaterTank.refill. -/
inductive WaterTankRefillStatus where
  | NOW_FULL
  | STILL_NOT_FULL
  deriving DecidableEq, Repr

/-- State of a WaterTank: maximum and current level in ml. -/
structure WaterTank where
  maximum_level : Int
  current_level : Int
  deriving DecidableEq, Repr

/-- WaterTank.__init__: validates maximum_level > 0 and
0 <= initial_level <= maximum_level, else InvalidWaterTankConfigError. -/
def WaterTank.make (maximum_level initial_level : Int) : Except WaterError WaterTank :=
  if maximum_level ≤ 0 then .error .invalidConfig
  else if initial_level < 0 then .error .invalidConfig
  else if initial_level > maximum_level then .error .invalidConfig
  else .ok ⟨maximum_level, initial_level⟩

/-- WaterTank.consume_water: requires use_level > 0 (else
InvalidWaterOperationError); subtracts when current - use_level >= 0,
else NotEnoughWaterError. -/
def WaterTank.consume_water (t : WaterTank) (use_level : Int) : Except WaterError WaterTank :=
  if use_level ≤ 0 then .error .invalidOperation
  else if t.current_level - use_level ≥ 0 then
    .ok { t with current_level := t.current_level - use_level }
  else .error .notEnoughWater

/-- WaterTank.refill: requires refill_level > 0 (else
InvalidWaterOperationError); caps at maximum_level when
current + refill_level >= maximum_level (NOW_FULL), else adds
(STILL_NOT_FULL). -/
def WaterTank.refill (t : WaterTank) (refill_level : Int) :
    Except WaterError (WaterTank × WaterTankRefillStatus) :=
  if refill_level ≤ 0 then .error .invalidOperation
  else
    let new_level := t.current_level + refill_level
    if new_level ≥ t.maximum_level then
      .ok ({ t with current_level := t.maximum_level }, .NOW_FULL)
    else
      .ok ({ t with current_level := new_level }, .STILL_NOT_FULL)

/-- WaterTank.is_empty. -/
def WaterTank.is_empty (t : WaterTank) : Bool := t.current_level = 0

/-- WaterTank.is_full. -/
def WaterTank.is_full (t : WaterTank) : Bool := t.current_level = t.maximum_level

/-- WaterTank.missing_capacity. -/
def WaterTank.missing_capacity (t : WaterTank) : Int := t.maximum_level - t.current_level

/-- Errors raised by BeanContainer (InvalidBeanContainerConfigError,
InvalidBeanOperationError, NotEnoughBeansError). -/
inductive BeanError where
  | invalidConfig
  | invalidOperation
  | notEnoughBeans
  deriving DecidableEq, Repr

/-- Result status of BeanContainer.refill. -/
inductive BeanContainerRefillStatus where
  | NOW_FULL
  | STILL_NOT_FULL
  deriving DecidableEq, Repr

/-- State of a BeanContainer: maximum and current quantity in grams. -/
structure BeanContainer where
  maximum_grams : Int
  current_grams : Int
  deriving DecidableEq, Repr

/-- BeanContainer.current_level property. -/
def BeanContainer.current_level (b : BeanContainer) : Int := b.current_grams

/-- BeanContainer.maximum_level property. -/
def BeanContainer.maximum_level (b : BeanContainer) : Int := b.maximum_grams

/-- BeanContainer.__init__: validates maximum_grams > 0 and
0 <= initial_grams <= maximum_grams, else InvalidBeanContainerConfigError. -/
def BeanContainer.make (maximum_grams initial_grams : Int) : Except BeanError BeanContainer :=
  if maximum_grams ≤ 0 then .error .invalidConfig
  else if initial_grams < 0 then .error .invalidConfig
  else if initial_grams > maximum_grams then .error .invalidConfig
  else .ok ⟨maximum_grams, initial_grams⟩

/-- BeanContainer.consume_beans: requires amount_grams > 0 (else
InvalidBeanOperationError); subtracts when current - amount >= 0,
else NotEnoughBeansError. -/
def BeanContainer.consume_beans (b : BeanContainer) (amount_grams : Int) :
    Except BeanError BeanContainer :=
  if amount_grams ≤ 0 then .error .invalidOperation
  else if b.current_grams - amount_grams ≥ 0 then
    .ok { b with current_grams := b.current_grams - amount_grams }
  else .error .notEnoughBeans

/-- BeanContainer.refill: requires refill_grams > 0 (else
InvalidBeanOperationError); caps at maximum when
current + refill_grams >= maximum (NOW_FULL), else adds (STILL_NOT_FULL). -/
def BeanContainer.refill (b : BeanContainer) (refill_grams : Int) :
    Except BeanError (BeanContainer × BeanContainerRefillStatus) :=
  if refill_grams ≤ 0 then .error .invalidOperation
  else
    let new_level := b.current_grams + refill_grams
    if new_level ≥ b.maximum_grams then
      .ok ({ b with current_grams := b.maximum_grams }, .NOW_FULL)
    else
      .ok ({ b with current_grams := new_level }, .STILL_NOT_FULL)

/-- BeanContainer.is_full. -/
def BeanContainer.is_full (b : BeanContainer) : Bool := b.current_grams = b.maximum_grams

/-- A call on a container: consume(amount) or refill(amount). -/
inductive ContainerOp where
  | consume (amount : Int)
  | refill (amount : Int)
  deriving DecidableEq, Repr

/-- Effect of one call on a WaterTank: a raised exception leaves the tank
unchanged (the Python methods mutate only on the success path). -/
def WaterTank.applyOp (t : WaterTank) : ContainerOp → WaterTank
  | .consume a =>
    match t.consume_water a with
    | .ok t' => t'
    | .error _ => t
  | .refill a =>
    match t.refill a with
    | .ok (t', _) => t'
    | .error _ => t

/-- Effect of a finite sequence of calls on a WaterTank. -/
def WaterTank.runOps (t : WaterTank) : List ContainerOp → WaterTank
  | [] => t
  | op :: ops => (t.applyOp op).runOps ops

/-- Effect of one call on a BeanContainer: a raised exception leaves the
container unchanged. -/
def BeanContainer.applyOp (b : BeanContainer) : ContainerOp → BeanContainer
  | .consume a =>
    match b.consume_beans a with
    | .ok b' => b'
    | .error _ => b
  | .refill a =>
    match b.refill a with
    | .ok (b', _) => b'
    | .error _ => b

/-- Effect of a finite sequence of calls on a BeanContainer. -/
def BeanContainer.runOps (b : BeanContainer) : List ContainerOp → BeanContainer
  | [] => b
  | op :: ops => (b.applyOp op).runOps ops

/-- Grind levels of a coffee recipe (CoffeeRecipeGrindLevel). -/
inductive CoffeeRecipeGrindLevel where
  | FINE
  | MEDIUM
  | COARSE
  deriving DecidableEq, Repr

/-- Upper bound on recipe water (MAX_WATER_ML). -/
def MAX_WATER_ML : Int := 2000

/-- Upper bound on recipe beans (MAX_BEANS_G). -/
def MAX_BEANS_G : Int := 500

/-- Immutable coffee recipe (CoffeeRecipe dataclass). -/
structure CoffeeRecipe where
  name : String
  water_ml : Int
  beans_g : Int
  grind : Option CoffeeRecipeGrindLevel
  deriving DecidableEq, Repr

/-- CoffeeRecipe.__post_init__ validation: non-empty (trimmed) name and
field bounds, else InvalidRecipeError. -/
def CoffeeRecipe.make (name : String) (water_ml beans_g : Int)
    (grind : Option CoffeeRecipeGrindLevel) : Except String CoffeeRecipe :=
  if name.trim = "" then .error "name must be a non-empty string"
  else if water_ml < 0 ∨ water_ml > MAX_WATER_ML then
    .error "water_ml out of range"
  else if beans_g < 0 ∨ beans_g > MAX_BEANS_G then
    .error "beans_g out of range"
  else .ok ⟨name, water_ml, beans_g, grind⟩

/-- CoffeeRecipe.requires_water: water_ml > 0. -/
def CoffeeRecipe.requires_water (r : CoffeeRecipe) : Bool := decide (r.water_ml > 0)

/-- CoffeeRecipe.requires_beans: beans_g > 0. -/
def CoffeeRecipe.requires_beans (r : CoffeeRecipe) : Bool := decide (r.beans_g > 0)

/-- Brew decision values (BrewDecision enum). -/
inductive BrewDecision where
  | OK
  | OUT_OF_WATER
  | OUT_OF_BEANS
  | RECIPE_FORBIDDEN
  | NEEDS_CLEANING
  | ERROR
  deriving DecidableEq, Repr

/-- Enum member name of a BrewDecision (Python decision.name). -/
def BrewDecision.name : BrewDecision → String
  | .OK => "OK"
  | .OUT_OF_WATER => "OUT_OF_WATER"
  | .OUT_OF_BEANS => "OUT_OF_BEANS"
  | .RECIPE_FORBIDDEN => "RECIPE_FORBIDDEN"
  | .NEEDS_CLEANING => "NEEDS_CLEANING"
  | .ERROR => "ERROR"

/-- Configuration of DefaultBrewPolicy. -/
structure DefaultBrewPolicy where
  clean_threshold : Int
  allow_recipe_with_no_requirements : Bool
  deriving DecidableEq, Repr

/-- DefaultBrewPolicy.__init__ validation: clean_threshold >= 0 else
ValueError. Defaults: clean_threshold = 100, allowance = false. -/
def DefaultBrewPolicy.make (clean_threshold : Int)
    (allow_recipe_with_no_requirements : Bool) : Except String DefaultBrewPolicy :=
  if clean_threshold < 0 then .error "clean_threshold must be >= 0"
  else .ok ⟨clean_threshold, allow_recipe_with_no_requirements⟩

/-- The maintenance_state argument of can_brew: an optional string-keyed
mapping (Python dict modelled as an association list). -/
def MaintenanceState := Option (List (String × Int))

/-- DefaultBrewPolicy.can_brew, translated clause by clause: normalize
maintenance_state (None and an empty dict both become the empty mapping),
read dirty_count with default 0, then the ordered checks of the source. -/
def DefaultBrewPolicy.can_brew (p : DefaultBrewPolicy) (recipe : CoffeeRecipe)
    (water_available_ml beans_available_g : Int)
    (maintenance_state : Option (List (String × Int))) : BrewDecision :=
  let ms : List (String × Int) := maintenance_state.getD []
  let dirty_count : Int := (ms.lookup "dirty_count").getD 0
  let requires_water := recipe.requires_water
  let requires_beans := recipe.requires_beans
  if requires_water = false ∧ requires_beans = false then
    if p.allow_recipe_with_no_requirements then BrewDecision.OK
    else BrewDecision.RECIPE_FORBIDDEN
  else if requires_water = true ∧ water_available_ml < recipe.water_ml then
    BrewDecision.OUT_OF_WATER
  else if requires_beans = true ∧ beans_available_g < recipe.beans_g then
    BrewDecision.OUT_OF_BEANS
  else if dirty_count ≥ p.clean_threshold then BrewDecision.NEEDS_CLEANING
  else BrewDecision.OK

/-- Cleaning action values (CleaningAction enum). -/
inductive CleaningAction where
  | NO_ACTION
  | SCHEDULE
  | IMMEDIATE
  deriving DecidableEq, Repr

/-- Configuration of DefaultCleaningPolicy. Timestamps and the optional
max_time_between_cleans duration are modelled as Int. -/
structure DefaultCleaningPolicy where
  schedule_threshold : Int
  immediate_threshold : Int
  max_time_between_cleans : Option Int
  deriving DecidableEq, Repr

/-- DefaultCleaningPolicy.__init__ validation:
0 <= schedule_threshold <= immediate_threshold else ValueError.
Defaults: 80 and 120, no time rule. -/
def DefaultCleaningPolicy.make (schedule_threshold immediate_threshold : Int)
    (max_time_between_cleans : Option Int) : Except String DefaultCleaningPolicy :=
  if 0 ≤ schedule_threshold ∧ schedule_threshold ≤ immediate_threshold then
    .ok ⟨schedule_threshold, immediate_threshold, max_time_between_cleans⟩
  else .error "0 <= schedule_threshold <= immediate_threshold required"

/-- The constraint checked by DefaultCleaningPolicy.__init__. -/
def DefaultCleaningPolicy.validConfig (p : DefaultCleaningPolicy) : Prop :=
  0 ≤ p.schedule_threshold ∧ p.schedule_threshold ≤ p.immediate_threshold

/-- The time-based condition of DefaultCleaningPolicy.evaluate:
max_time_between_cleans is configured, last_cleaned_ts is known, and
now - last_cleaned_ts >= max_time_between_cleans. -/
def DefaultCleaningPolicy.timeDue (p : DefaultCleaningPolicy)
    (last_cleaned_ts : Option Int) (now : Int) : Bool :=
  match p.max_time_between_cleans, last_cleaned_ts with
  | some maxT, some last => decide (now - last ≥ maxT)
  | _, _ => false

/-- DefaultCleaningPolicy.evaluate: time-based immediate check first
(datetime.utcnow() is the explicit now argument), then the count-based
thresholds. -/
def DefaultCleaningPolicy.evaluate (p : DefaultCleaningPolicy) (dirty_count : Int)
    (last_cleaned_ts : Option Int) (now : Int) : CleaningAction :=
  if p.timeDue last_cleaned_ts now then CleaningAction.IMMEDIATE
  else if dirty_count < p.schedule_threshold then CleaningAction.NO_ACTION
  else if dirty_count < p.immediate_threshold then CleaningAction.SCHEDULE
  else CleaningAction.IMMEDIATE

/-- Refill result values (RefillResult enum). -/
inductive RefillResult where
  | NOW_FULL
  | STILL_NOT_FULL
  | OVERFLOW_ERROR
  deriving DecidableEq, Repr

/-- Error raised by refill policies on a non-positive amount (ValueError). -/
inductive RefillPolicyError where
  | invalidArgument
  deriving DecidableEq, Repr

/-- CapRefillPolicy.on_refill: cap at maximum on overflow. -/
def CapRefillPolicy.on_refill (current_level refill_amount maximum : Int) :
    Except RefillPolicyError (Int × RefillResult) :=
  if refill_amount ≤ 0 then .error .invalidArgument
  else
    let new_level := current_level + refill_amount
    if new_level ≥ maximum then .ok (maximum, .NOW_FULL)
    else .ok (new_level, .STILL_NOT_FULL)

/-- StrictRefillPolicy.on_refill: report OVERFLOW_ERROR (level unchanged)
instead of capping. -/
def StrictRefillPolicy.on_refill (current_level refill_amount maximum : Int) :
    Except RefillPolicyError (Int × RefillResult) :=
  if refill_amount ≤ 0 then .error .invalidArgument
  else
    let new_level := current_level + refill_amount
    if new_level > maximum then .ok (current_level, .OVERFLOW_ERROR)
    else if new_level = maximum then .ok (maximum, .NOW_FULL)
    else .ok (new_level, .STILL_NOT_FULL)

/-- Which refill strategy a machine holds (the injected refill_policy). -/
inductive RefillPolicyKind where
  | cap
  | strict
  deriving DecidableEq, Repr

/-- Errors escaping SimpleCoffeeMachine.brew: the RuntimeError for a missing
recipe, or a propagated container exception. -/
inductive MachineError where
  | noRecipeSelected
  | water (e : WaterError)
  | beans (e : BeanError)
  deriving DecidableEq, Repr

/-- State of a SimpleCoffeeMachine. state is the Python string attribute. -/
structure SimpleCoffeeMachine where
  water_tank : WaterTank
  bean_container : BeanContainer
  brew_policy : DefaultBrewPolicy
  cleaning_policy : DefaultCleaningPolicy
  refill_policy : RefillPolicyKind
  state : String
  active_recipe : Option CoffeeRecipe
  dirty_count : Int
  last_cleaned_ts : Option Int
  cleaning_scheduled : Bool
  deriving DecidableEq, Repr

/-- SimpleCoffeeMachine.select_recipe. -/
def SimpleCoffeeMachine.select_recipe (m : SimpleCoffeeMachine)
    (recipe : CoffeeRecipe) : SimpleCoffeeMachine :=
  { m with active_recipe := some recipe }

/-- SimpleCoffeeMachine.brew, translated step by step: missing recipe raises;
the brew policy is consulted with the current levels and
maintenance_state = one-key mapping dirty_count; a non-OK decision only sets
state to the decision name; on OK the required resources are consumed (an
escaped container exception is an error value), dirty_count is incremented,
and the cleaning policy's action on the new count picks the final state. -/
def SimpleCoffeeMachine.brew (m : SimpleCoffeeMachine) (now : Int) :
    Except MachineError (SimpleCoffeeMachine × BrewDecision) :=
  match m.active_recipe with
  | none => .error .noRecipeSelected
  | some recipe =>
    let decision := m.brew_policy.can_brew recipe m.water_tank.current_level
        m.bean_container.current_level (some [("dirty_count", m.dirty_count)])
    if decision = BrewDecision.OK then
      let waterRes : Except MachineError WaterTank :=
        if recipe.requires_water then
          match m.water_tank.consume_water recipe.water_ml with
          | .ok t => .ok t
          | .error e => .error (.water e)
        else .ok m.water_tank
      match waterRes with
      | .error e => .error e
      | .ok wt =>
        let beanRes : Except MachineError BeanContainer :=
          if recipe.requires_beans then
            match m.bean_container.consume_beans recipe.beans_g with
            | .ok c => .ok c
            | .error e => .error (.beans e)
          else .ok m.bean_container
        match beanRes with
        | .error e => .error e
        | .ok bc =>
          let dirty := m.dirty_count + 1
          match m.cleaning_policy.evaluate dirty m.last_cleaned_ts now with
          | CleaningAction.IMMEDIATE =>
            .ok ({ m with
                    water_tank := wt
                    bean_container := bc
                    dirty_count := dirty
                    state := "NEEDS_CLEANING" }, BrewDecision.OK)
          | CleaningAction.SCHEDULE =>
            .ok ({ m with
                    water_tank := wt
                    bean_container := bc
                    dirty_count := dirty
                    cleaning_scheduled := true
                    state := "IDLE" }, BrewDecision.OK)
          | CleaningAction.NO_ACTION =>
            .ok ({ m with
                    water_tank := wt
                    bean_container := bc
                    dirty_count := dirty
                    state := "IDLE" }, BrewDecision.OK)
    else
      .ok ({ m with state := decision.name }, decision)

/-- SimpleCoffeeMachine.clean: reset dirty_count, record the timestamp,
clear the scheduled flag, go IDLE. -/
def SimpleCoffeeMachine.clean (m : SimpleCoffeeMachine) (now : Int) :
    SimpleCoffeeMachine :=
  { m with dirty_count := 0, last_cleaned_ts := some now,
           cleaning_scheduled := false, state := "IDLE" }

/-- The espresso recipe of Scenario B / Scenario C. -/
def espresso : CoffeeRecipe := ⟨"espresso", 30, 8, none⟩

/-- The Scenario C machine: water 150/500, beans 50/500, default policies
(clean_threshold 100, schedule 80 / immediate 120, no time rule), fresh
state, with espresso selected. -/
def scenarioC : SimpleCoffeeMachine :=
  { water_tank := ⟨500, 150⟩
    bean_container := ⟨500, 50⟩
    brew_policy := ⟨100, false⟩
    cleaning_policy := ⟨80, 120, none⟩
    refill_policy := RefillPolicyKind.cap
    state := "IDLE"
    active_recipe := some espresso
    dirty_count := 0
    last_cleaned_ts := none
    cleaning_scheduled := false }

/-- The documented container invariant: 0 <= current <= maximum. -/
def WaterTank.inv (t : WaterTank) : Prop :=
  0 ≤ t.current_level ∧ t.current_level ≤ t.maximum_level

/-- The documented container invariant: 0 <= current <= maximum. -/
def BeanContainer.inv (b : BeanContainer) : Prop :=
  0 ≤ b.current_grams ∧ b.current_grams ≤ b.maximum_grams

instance (t : WaterTank) : Decidable t.inv := by unfold WaterTank.inv; infer_instance

instance (b : BeanContainer) : Decidable b.inv := by unfold BeanContainer.inv; infer_instance

instance (p : DefaultCleaningPolicy) : Decidable p.validConfig := by
  unfold DefaultCleaningPolicy.validConfig
  infer_instance

-- Helper lemmas: each single call preserves the invariant and the maximum.

lemma waterTank_applyOp_inv (t : WaterTank) (op : ContainerOp) (h : t.inv) :
    (t.applyOp op).inv ∧ (t.applyOp op).maximum_level = t.maximum_level := by
  obtain ⟨h0, hm⟩ := h
  cases op with
  | consume a =>
    simp only [WaterTank.applyOp]
    split
    · rename_i t' heq
      unfold WaterTank.consume_water at heq
      split at heq
      · cases heq
      · rename_i hpos
        split at heq
        · rename_i hge
          cases heq
          refine ⟨?_, rfl⟩
          simp only [WaterTank.inv]
          omega
        · cases heq
    · exact ⟨⟨h0, hm⟩, rfl⟩
  | refill a =>
    simp only [WaterTank.applyOp]
    split
    · rename_i t' s heq
      unfold WaterTank.refill at heq
      split at heq
      · cases heq
      · rename_i hpos
        simp only [] at heq
        split at heq
        · rename_i hge
          cases heq
          refine ⟨?_, rfl⟩
          simp only [WaterTank.inv]
          omega
        · rename_i hlt
          cases heq
          refine ⟨?_, rfl⟩
          simp only [WaterTank.inv]
          omega
    · exact ⟨⟨h0, hm⟩, rfl⟩

lemma waterTank_runOps_inv (t : WaterTank) (ops : List ContainerOp) (h : t.inv) :
    (t.runOps ops).inv ∧ (t.runOps ops).maximum_level = t.maximum_level := by
  induction ops generalizing t with
  | nil => exact ⟨h, rfl⟩
  | cons op ops ih =>
    obtain ⟨h1, h2⟩ := waterTank_applyOp_inv t op h
    obtain ⟨h3, h4⟩ := ih (t.applyOp op) h1
    exact ⟨h3, h4.trans h2⟩

lemma beanContainer_applyOp_inv (b : BeanContainer) (op : ContainerOp) (h : b.inv) :
    (b.applyOp op).inv ∧ (b.applyOp op).maximum_grams = b.maximum_grams := by
  obtain ⟨h0, hm⟩ := h
  cases op with
  | consume a =>
    simp only [BeanContainer.applyOp]
    split
    · rename_i b' heq
      unfold BeanContainer.consume_beans at heq
      split at heq
      · cases heq
      · rename_i hpos
        split at heq
        · rename_i hge
          cases heq
          refine ⟨?_, rfl⟩
          simp only [BeanContainer.inv]
          omega
        · cases heq
    · exact ⟨⟨h0, hm⟩, rfl⟩
  | refill a =>
    simp only [BeanContainer.applyOp]
    split
    · rename_i b' s heq
      unfold BeanContainer.refill at heq
      split at heq
      · cases heq
      · rename_i hpos
        simp only [] at heq
        split at heq
        · rename_i hge
          cases heq
          refine ⟨?_, rfl⟩
          simp only [BeanContainer.inv]
          omega
        · rename_i hlt
          cases heq
          refine ⟨?_, rfl⟩
          simp only [BeanContainer.inv]
          omega
    · exact ⟨⟨h0, hm⟩, rfl⟩

lemma beanContainer_runOps_inv (b : BeanContainer) (ops : List ContainerOp) (h : b.inv) :
    (b.runOps ops).inv ∧ (b.runOps ops).maximum_grams = b.maximum_grams := by
  induction ops generalizing b with
  | nil => exact ⟨h, rfl⟩
  | cons op ops ih =>
    obtain ⟨h1, h2⟩ := beanContainer_applyOp_inv b op h
    obtain ⟨h3, h4⟩ := ih (b.applyOp op) h1
    exact ⟨h3, h4.trans h2⟩

lemma waterTank_make_inv (mx ini : Int) (t : WaterTank)
    (h : WaterTank.make mx ini = .ok t) :
    t.inv ∧ t.maximum_level = mx := by
  unfold WaterTank.make at h
  split at h
  · cases h
  · split at h
    · cases h
    · split at h
      · cases h
      · cases h
        rename_i h1 h2 h3
        refine ⟨?_, rfl⟩
        simp only [WaterTank.inv]
        omega

lemma beanContainer_make_inv (mx ini : Int) (b : BeanContainer)
    (h : BeanContainer.make mx ini = .ok b) :
    b.inv ∧ b.maximum_grams = mx := by
  unfold BeanContainer.make at h
  split at h
  · cases h
  · split at h
    · cases h
    · split at h
      · cases h
      · cases h
        rename_i h1 h2 h3
        refine ⟨?_, rfl⟩
        simp only [BeanContainer.inv]
        omega

/-- C2: every WaterTank and BeanContainer successfully constructed keeps
0 <= current <= maximum after any finite sequence of consume and refill
calls (failed calls leave the state unchanged), and the maximum is the one
fixed at construction. -/
theorem containers_invariant_preserved
    (mxw iw mxb ib : Int) (t : WaterTank) (b : BeanContainer)
    (ht : WaterTank.make mxw iw = .ok t)
    (hb : BeanContainer.make mxb ib = .ok b)
    (ops : List ContainerOp) :
    (0 ≤ (t.runOps ops).current_level ∧
      (t.runOps ops).current_level ≤ (t.runOps ops).maximum_level ∧
      (t.runOps ops).maximum_level = mxw) ∧
    (0 ≤ (b.runOps ops).current_level ∧
      (b.runOps ops).current_level ≤ (b.runOps ops).maximum_level ∧
      (b.runOps ops).maximum_level = mxb) := by
  obtain ⟨hti, htm⟩ := waterTank_make_inv mxw iw t ht
  obtain ⟨hbi, hbm⟩ := beanContainer_make_inv mxb ib b hb
  obtain ⟨hi1, h3⟩ := waterTank_runOps_inv t ops hti
  obtain ⟨hi2, h6⟩ := beanContainer_runOps_inv b ops hbi
  unfold WaterTank.inv at hi1
  unfold BeanContainer.inv at hi2
  exact ⟨⟨hi1.1, hi1.2, h3.trans htm⟩, ⟨hi2.1, hi2.2, h6.trans hbm⟩⟩

/-- Witness for C2: a concrete tank 500/150 and container 500/50 run through
a sequence with failing and succeeding calls keep the invariant. -/
theorem containers_invariant_preserved_witness :
    WaterTank.make 500 150 = .ok ⟨500, 150⟩ ∧
    BeanContainer.make 500 50 = .ok ⟨500, 50⟩ ∧
    ((0 ≤ ((⟨500, 150⟩ : WaterTank).runOps
        [.consume 30, .refill 600, .consume 1000, .consume 0]).current_level ∧
      ((⟨500, 150⟩ : WaterTank).runOps
        [.consume 30, .refill 600, .consume 1000, .consume 0]).current_level ≤
        ((⟨500, 150⟩ : WaterTank).runOps
        [.consume 30, .refill 600, .consume 1000, .consume 0]).maximum_level ∧
      ((⟨500, 150⟩ : WaterTank).runOps
        [.consume 30, .refill 600, .consume 1000, .consume 0]).maximum_level = 500) ∧
     (0 ≤ ((⟨500, 50⟩ : BeanContainer).runOps
        [.consume 30, .refill 600, .consume 1000, .consume 0]).current_level ∧
      ((⟨500, 50⟩ : BeanContainer).runOps
        [.consume 30, .refill 600, .consume 1000, .consume 0]).current_level ≤
        ((⟨500, 50⟩ : BeanContainer).runOps
        [.consume 30, .refill 600, .consume 1000, .consume 0]).maximum_level ∧
      ((⟨500, 50⟩ : BeanContainer).runOps
        [.consume 30, .refill 600, .consume 1000, .consume 0]).maximum_level = 500)) :=
  ⟨by decide, by decide,
    containers_invariant_preserved 500 150 500 50 ⟨500, 150⟩ ⟨500, 50⟩
      (by decide) (by decide) [.consume 30, .refill 600, .consume 1000, .consume 0]⟩

-- Per-container consume contracts, shared by the claims below.

lemma WaterTank.consume_water_spec (t : WaterTank) (a : Int) :
    (t.consume_water a = Except.error WaterError.invalidOperation ↔ a ≤ 0) ∧
    (t.consume_water a = Except.error WaterError.notEnoughWater ↔
      0 < a ∧ t.current_level - a < 0) ∧
    (∀ e, t.consume_water a = Except.error e →
      t.applyOp (ContainerOp.consume a) = t) ∧
    (∀ t', t.consume_water a = Except.ok t' →
      t'.current_level = t.current_level - a ∧
      t'.maximum_level = t.maximum_level) := by
  by_cases h1 : a ≤ 0
  · have hc : t.consume_water a = Except.error WaterError.invalidOperation := by
      unfold consume_water
      simp [h1]
    refine ⟨?_, ?_, ?_, ?_⟩
    · simp [hc] <;> omega
    · simp [hc] <;> omega
    · intro e _
      simp [applyOp, hc]
    · simp [hc]
  · by_cases h2 : t.current_level - a ≥ 0
    · have hc : t.consume_water a =
          Except.ok { t with current_level := t.current_level - a } := by
        unfold consume_water
        simp [h1, h2]
      refine ⟨?_, ?_, ?_, ?_⟩
      · simp [hc] <;> omega
      · simp [hc] <;> omega
      · simp [hc]
      · intro t' ht'
        rw [hc] at ht'
        cases ht'
        simp
    · have hc : t.consume_water a = Except.error WaterError.notEnoughWater := by
        unfold consume_water
        simp [h1, h2]
      refine ⟨?_, ?_, ?_, ?_⟩
      · simp [hc] <;> omega
      · simp [hc] <;> omega
      · intro e _
        simp [applyOp, hc]
      · simp [hc]

lemma BeanContainer.consume_beans_spec (b : BeanContainer) (a : Int) :
    (b.consume_beans a = Except.error BeanError.invalidOperation ↔ a ≤ 0) ∧
    (b.consume_beans a = Except.error BeanError.notEnoughBeans ↔
      0 < a ∧ b.current_level - a < 0) ∧
    (∀ e, b.consume_beans a = Except.error e →
      b.applyOp (ContainerOp.consume a) = b) ∧
    (∀ b', b.consume_beans a = Except.ok b' →
      b'.current_level = b.current_level - a ∧
      b'.maximum_level = b.maximum_level) := by
  by_cases h1 : a ≤ 0
  · have hc : b.consume_beans a = Except.error BeanError.invalidOperation := by
      unfold consume_beans
      simp [h1]
    refine ⟨?_, ?_, ?_, ?_⟩
    · simp [hc] <;> omega
    · simp [hc, BeanContainer.current_level] <;> omega
    · intro e _
      simp [applyOp, hc]
    · simp [hc]
  · by_cases h2 : b.current_grams - a ≥ 0
    · have hc : b.consume_beans a =
          Except.ok { b with current_grams := b.current_grams - a } := by
        unfold consume_beans
        simp [h1, h2]
      refine ⟨?_, ?_, ?_, ?_⟩
      · simp [hc] <;> omega
      · simp [hc, BeanContainer.current_level] <;> omega
      · simp [hc]
      · intro b' hb'
        rw [hc] at hb'
        cases hb'
        simp [BeanContainer.current_level, BeanContainer.maximum_level]
    · have hc : b.consume_beans a = Except.error BeanError.notEnoughBeans := by
        unfold consume_beans
        simp [h1, h2]
      refine ⟨?_, ?_, ?_, ?_⟩
      · simp [hc] <;> omega
      · simp [hc, BeanContainer.current_level] <;> omega
      · intro e _
        simp [applyOp, hc]
      · simp [hc]

/-- C3: for every container (water tank and bean container alike) and every
integer amount, consume fails with the invalid-operation error exactly when
amount <= 0, fails with the insufficient-resource error exactly when
amount > 0 and current - amount < 0, a failed call leaves the level
unchanged, and a successful call decreases the level by exactly the amount
(leaving the maximum unchanged). -/
theorem consume_contract (t : WaterTank) (b : BeanContainer) (a : Int) :
    ((t.consume_water a = Except.error WaterError.invalidOperation ↔ a ≤ 0) ∧
     (t.consume_water a = Except.error WaterError.notEnoughWater ↔
       0 < a ∧ t.current_level - a < 0) ∧
     (∀ e, t.consume_water a = Except.error e →
       t.applyOp (ContainerOp.consume a) = t) ∧
     (∀ t', t.consume_water a = Except.ok t' →
       t'.current_level = t.current_level - a ∧
       t'.maximum_level = t.maximum_level)) ∧
    ((b.consume_beans a = Except.error BeanError.invalidOperation ↔ a ≤ 0) ∧
     (b.consume_beans a = Except.error BeanError.notEnoughBeans ↔
       0 < a ∧ b.current_level - a < 0) ∧
     (∀ e, b.consume_beans a = Except.error e →
       b.applyOp (ContainerOp.consume a) = b) ∧
     (∀ b', b.consume_beans a = Except.ok b' →
       b'.current_level = b.current_level - a ∧
       b'.maximum_level = b.maximum_level)) :=
  ⟨t.consume_water_spec a, b.consume_beans_spec a⟩

/-- Witness for C3: instantiation at a tank 500/150, a container 500/50 and
amount 30, together with the concrete outcomes of a success, an
invalid-operation failure and an insufficient-resource failure. -/
theorem consume_contract_witness :
    ((⟨500, 150⟩ : WaterTank).consume_water 30 = Except.ok ⟨500, 120⟩) ∧
    ((⟨500, 150⟩ : WaterTank).consume_water 0 =
      Except.error WaterError.invalidOperation) ∧
    ((⟨500, 50⟩ : BeanContainer).consume_beans 60 =
      Except.error BeanError.notEnoughBeans) ∧
    ((⟨500, 120⟩ : WaterTank).current_level = 150 - 30 ∧
      (⟨500, 120⟩ : WaterTank).maximum_level = 500) :=
  ⟨by decide, by decide, by decide,
    (consume_contract ⟨500, 150⟩ ⟨500, 50⟩ 30).1.2.2.2 ⟨500, 120⟩ (by decide)⟩

-- Per-container refill contracts.

lemma waterTank_refill_spec (t : WaterTank) (a : Int) (ha : 0 < a) :
    (t.current_level + a ≥ t.maximum_level →
      t.refill a = Except.ok ({ t with current_level := t.maximum_level },
        WaterTankRefillStatus.NOW_FULL)) ∧
    (t.current_level + a < t.maximum_level →
      t.refill a = Except.ok ({ t with current_level := t.current_level + a },
        WaterTankRefillStatus.STILL_NOT_FULL)) := by
  have h1 : ¬ a ≤ 0 := by omega
  constructor
  · intro h
    unfold WaterTank.refill
    simp [h1, h]
  · intro h
    unfold WaterTank.refill
    have h2 : ¬ t.current_level + a ≥ t.maximum_level := by omega
    simp [h1, h2]

lemma beanContainer_refill_spec (b : BeanContainer) (a : Int) (ha : 0 < a) :
    (b.current_grams + a ≥ b.maximum_grams →
      b.refill a = Except.ok ({ b with current_grams := b.maximum_grams },
        BeanContainerRefillStatus.NOW_FULL)) ∧
    (b.current_grams + a < b.maximum_grams →
      b.refill a = Except.ok ({ b with current_grams := b.current_grams + a },
        BeanContainerRefillStatus.STILL_NOT_FULL)) := by
  have h1 : ¬ a ≤ 0 := by omega
  constructor
  · intro h
    unfold BeanContainer.refill
    simp [h1, h]
  · intro h
    unfold BeanContainer.refill
    have h2 : ¬ b.current_grams + a ≥ b.maximum_grams := by omega
    simp [h1, h2]

/-- C4: refilling any container with a positive amount never fails: the level
is capped at maximum with status NOW_FULL when current + amount reaches or
exceeds maximum, and is increased to current + amount with status
STILL_NOT_FULL otherwise; refilling an already-full container with any
positive amount returns NOW_FULL and leaves current at maximum. -/
theorem refill_caps_never_fails (t : WaterTank) (b : BeanContainer) (a : Int)
    (ha : 0 < a) :
    ((t.current_level + a ≥ t.maximum_level →
       t.refill a = Except.ok ({ t with current_level := t.maximum_level },
         WaterTankRefillStatus.NOW_FULL)) ∧
     (t.current_level + a < t.maximum_level →
       t.refill a = Except.ok ({ t with current_level := t.current_level + a },
         WaterTankRefillStatus.STILL_NOT_FULL)) ∧
     (t.is_full = true →
       t.refill a = Except.ok ({ t with current_level := t.maximum_level },
         WaterTankRefillStatus.NOW_FULL)) ∧
     (∃ r, t.refill a = Except.ok r)) ∧
    ((b.current_grams + a ≥ b.maximum_grams →
       b.refill a = Except.ok ({ b with current_grams := b.maximum_grams },
         BeanContainerRefillStatus.NOW_FULL)) ∧
     (b.current_grams + a < b.maximum_grams →
       b.refill a = Except.ok ({ b with current_grams := b.current_grams + a },
         BeanContainerRefillStatus.STILL_NOT_FULL)) ∧
     (b.is_full = true →
       b.refill a = Except.ok ({ b with current_grams := b.maximum_grams },
         BeanContainerRefillStatus.NOW_FULL)) ∧
     (∃ r, b.refill a = Except.ok r)) := by
  obtain ⟨tw1, tw2⟩ := waterTank_refill_spec t a ha
  obtain ⟨bw1, bw2⟩ := beanContainer_refill_spec b a ha
  refine ⟨⟨tw1, tw2, ?_, ?_⟩, ⟨bw1, bw2, ?_, ?_⟩⟩
  · intro hf
    apply tw1
    unfold WaterTank.is_full at hf
    simp at hf
    omega
  · rcases le_or_lt t.maximum_level (t.current_level + a) with h | h
    · exact ⟨_, tw1 h⟩
    · exact ⟨_, tw2 h⟩
  · intro hf
    apply bw1
    unfold BeanContainer.is_full at hf
    simp at hf
    omega
  · rcases le_or_lt b.maximum_grams (b.current_grams + a) with h | h
    · exact ⟨_, bw1 h⟩
    · exact ⟨_, bw2 h⟩

/-- Witness for C4: Scenario A, Container(max=500, initial=450).refill(200)
gives current=500 with status NOW_FULL, and refilling the full tank again
keeps it at 500/NOW_FULL. -/
theorem refill_caps_never_fails_witness :
    (0 : Int) < 200 ∧
    ((⟨500, 450⟩ : WaterTank).refill 200 =
      Except.ok (⟨500, 500⟩, WaterTankRefillStatus.NOW_FULL)) ∧
    ((⟨500, 500⟩ : WaterTank).refill 200 =
      Except.ok (⟨500, 500⟩, WaterTankRefillStatus.NOW_FULL)) ∧
    ((⟨500, 450⟩ : BeanContainer).refill 200 =
      Except.ok (⟨500, 500⟩, BeanContainerRefillStatus.NOW_FULL)) :=
  ⟨by decide,
    (refill_caps_never_fails ⟨500, 450⟩ ⟨500, 450⟩ 200 (by decide)).1.1 (by decide),
    (refill_caps_never_fails ⟨500, 500⟩ ⟨500, 450⟩ 200 (by decide)).1.2.2.1 (by decide),
    (refill_caps_never_fails ⟨500, 450⟩ ⟨500, 450⟩ 200 (by decide)).2.1 (by decide)⟩

/-- C8: StrictRefillPolicy.on_refill fails with InvalidArgument when the
amount is non-positive; with a positive amount it returns
(current, OVERFLOW_ERROR) with the level unchanged when current + amount
exceeds maximum, (maximum, NOW_FULL) when current + amount equals maximum,
and (current + amount, STILL_NOT_FULL) otherwise. -/
theorem strict_refill_contract (c a mx : Int) :
    (a ≤ 0 → StrictRefillPolicy.on_refill c a mx =
      Except.error RefillPolicyError.invalidArgument) ∧
    (0 < a → c + a > mx → StrictRefillPolicy.on_refill c a mx =
      Except.ok (c, RefillResult.OVERFLOW_ERROR)) ∧
    (0 < a → c + a = mx → StrictRefillPolicy.on_refill c a mx =
      Except.ok (mx, RefillResult.NOW_FULL)) ∧
    (0 < a → c + a < mx → StrictRefillPolicy.on_refill c a mx =
      Except.ok (c + a, RefillResult.STILL_NOT_FULL)) := by
  refine ⟨?_, ?_, ?_, ?_⟩
  · intro h
    unfold StrictRefillPolicy.on_refill
    simp [h]
  · intro h1 h2
    have h3 : ¬ a ≤ 0 := by omega
    unfold StrictRefillPolicy.on_refill
    simp [h3, h2]
  · intro h1 h2
    have h3 : ¬ a ≤ 0 := by omega
    have h4 : ¬ c + a > mx := by omega
    unfold StrictRefillPolicy.on_refill
    simp [h3, h4, h2]
  · intro h1 h2
    have h3 : ¬ a ≤ 0 := by omega
    have h4 : ¬ c + a > mx := by omega
    have h5 : ¬ c + a = mx := by omega
    unfold StrictRefillPolicy.on_refill
    simp [h3, h4, h5]

/-- Witness for C8: Scenario D, on_refill(current=180, amount=50,
maximum=200) returns (180, OVERFLOW_ERROR). -/
theorem strict_refill_contract_witness :
    (0 : Int) < 50 ∧ (180 : Int) + 50 > 200 ∧
    StrictRefillPolicy.on_refill 180 50 200 =
      Except.ok (180, RefillResult.OVERFLOW_ERROR) :=
  ⟨by decide, by decide,
    (strict_refill_contract 180 50 200).2.1 (by decide) (by decide)⟩

/-- C5: DefaultBrewPolicy.can_brew checks water strictly before beans: for
every recipe requiring water (in particular one requiring both), whenever
the available water is below recipe.water_ml the decision is OUT_OF_WATER,
whatever the bean level and maintenance state are. -/
theorem can_brew_water_before_beans (p : DefaultBrewPolicy)
    (recipe : CoffeeRecipe) (w b : Int) (ms : Option (List (String × Int)))
    (hw : recipe.requires_water = true) (hb : recipe.requires_beans = true)
    (hlt : w < recipe.water_ml) :
    p.can_brew recipe w b ms = BrewDecision.OUT_OF_WATER := by
  unfold DefaultBrewPolicy.can_brew
  simp [hw, hb, hlt]

/-- Witness for C5: Scenario B, espresso(30, 8) with clean_threshold 5,
water 20, beans 100 and dirty_count 0 decides OUT_OF_WATER; so does the same
call with beans 0 (both resources short). -/
theorem can_brew_water_before_beans_witness :
    espresso.requires_water = true ∧ espresso.requires_beans = true ∧
    (20 : Int) < espresso.water_ml ∧
    DefaultBrewPolicy.can_brew ⟨5, false⟩ espresso 20 100
      (some [("dirty_count", 0)]) = BrewDecision.OUT_OF_WATER ∧
    DefaultBrewPolicy.can_brew ⟨5, false⟩ espresso 20 0
      (some [("dirty_count", 0)]) = BrewDecision.OUT_OF_WATER :=
  ⟨by decide, by decide, by decide,
    can_brew_water_before_beans ⟨5, false⟩ espresso 20 100
      (some [("dirty_count", 0)]) (by decide) (by decide) (by decide),
    can_brew_water_before_beans ⟨5, false⟩ espresso 20 0
      (some [("dirty_count", 0)]) (by decide) (by decide) (by decide)⟩

/-- C10: can_brew with maintenance_state None, or with a mapping lacking the
dirty_count key, decides exactly as with the mapping sending dirty_count
to 0. -/
theorem can_brew_missing_maintenance_defaults (p : DefaultBrewPolicy)
    (recipe : CoffeeRecipe) (w b : Int) (ms : List (String × Int))
    (h : ms.lookup "dirty_count" = none) :
    p.can_brew recipe w b none =
      p.can_brew recipe w b (some [("dirty_count", 0)]) ∧
    p.can_brew recipe w b (some ms) =
      p.can_brew recipe w b (some [("dirty_count", 0)]) := by
  unfold DefaultBrewPolicy.can_brew
  simp [h]

/-- Witness for C10: a mapping with an unrelated key decides as
dirty_count = 0 for the espresso recipe with 150 ml water and 50 g beans. -/
theorem can_brew_missing_maintenance_defaults_witness :
    ([("water_hardness", 3)] : List (String × Int)).lookup "dirty_count" =
      none ∧
    (DefaultBrewPolicy.can_brew ⟨100, false⟩ espresso 150 50 none =
      DefaultBrewPolicy.can_brew ⟨100, false⟩ espresso 150 50
        (some [("dirty_count", 0)]) ∧
     DefaultBrewPolicy.can_brew ⟨100, false⟩ espresso 150 50
        (some [("water_hardness", 3)]) =
      DefaultBrewPolicy.can_brew ⟨100, false⟩ espresso 150 50
        (some [("dirty_count", 0)])) :=
  ⟨by decide,
    can_brew_missing_maintenance_defaults ⟨100, false⟩ espresso 150 50
      [("water_hardness", 3)] (by decide)⟩

/-- Counterexample for C6: the configuration schedule_threshold =
immediate_threshold = 0 is valid (0 <= 0 <= 0), the time rule does not
apply, and evaluate at dirtyCount == scheduleThreshold returns IMMEDIATE,
not SCHEDULE. -/
theorem cleaning_schedule_boundary_counterexample :
    DefaultCleaningPolicy.validConfig ⟨0, 0, none⟩ ∧
    DefaultCleaningPolicy.timeDue ⟨0, 0, none⟩ none 0 = false ∧
    DefaultCleaningPolicy.evaluate ⟨0, 0, none⟩ 0 none 0 =
      CleaningAction.IMMEDIATE ∧
    CleaningAction.IMMEDIATE ≠ CleaningAction.SCHEDULE := by
  refine ⟨?_, ?_, ?_, ?_⟩ <;> decide

/-- C6 amended: for every DefaultCleaningPolicy with a valid configuration
and the time rule not applying, evaluate at dirtyCount == immediateThreshold
returns IMMEDIATE (not SCHEDULE); evaluate at dirtyCount == scheduleThreshold
returns SCHEDULE (not NO_ACTION) provided scheduleThreshold <
immediateThreshold — when the two thresholds are equal it returns IMMEDIATE
instead. -/
theorem cleaning_threshold_boundaries (p : DefaultCleaningPolicy)
    (last : Option Int) (now : Int) (hv : p.validConfig)
    (ht : p.timeDue last now = false) :
    (p.schedule_threshold < p.immediate_threshold →
      p.evaluate p.schedule_threshold last now = CleaningAction.SCHEDULE) ∧
    p.evaluate p.immediate_threshold last now = CleaningAction.IMMEDIATE ∧
    (p.schedule_threshold = p.immediate_threshold →
      p.evaluate p.schedule_threshold last now = CleaningAction.IMMEDIATE) := by
  unfold DefaultCleaningPolicy.validConfig at hv
  refine ⟨?_, ?_, ?_⟩
  · intro hlt
    unfold DefaultCleaningPolicy.evaluate
    have c1 : ¬ (p.schedule_threshold < p.schedule_threshold) := by omega
    simp [ht, c1, hlt]
  · unfold DefaultCleaningPolicy.evaluate
    have c1 : ¬ (p.immediate_threshold < p.schedule_threshold) := by omega
    have c2 : ¬ (p.immediate_threshold < p.immediate_threshold) := by omega
    simp [ht, c1, c2]
  · intro heq
    unfold DefaultCleaningPolicy.evaluate
    have c1 : ¬ (p.schedule_threshold < p.schedule_threshold) := by omega
    have c2 : ¬ (p.schedule_threshold < p.immediate_threshold) := by omega
    simp [ht, c1, c2]

/-- Witness for C6: the default thresholds 80 < 120 with no time rule give
SCHEDULE at dirty_count 80 and IMMEDIATE at dirty_count 120. -/
theorem cleaning_threshold_boundaries_witness :
    DefaultCleaningPolicy.validConfig ⟨80, 120, none⟩ ∧
    DefaultCleaningPolicy.timeDue ⟨80, 120, none⟩ none 0 = false ∧
    (((80 : Int) < 120 →
       DefaultCleaningPolicy.evaluate ⟨80, 120, none⟩ 80 none 0 =
         CleaningAction.SCHEDULE) ∧
     DefaultCleaningPolicy.evaluate ⟨80, 120, none⟩ 120 none 0 =
       CleaningAction.IMMEDIATE ∧
     ((80 : Int) = 120 →
       DefaultCleaningPolicy.evaluate ⟨80, 120, none⟩ 80 none 0 =
         CleaningAction.IMMEDIATE)) :=
  ⟨by decide, by decide,
    cleaning_threshold_boundaries ⟨80, 120, none⟩ none 0 (by decide) (by decide)⟩

/-- C7: with max_time_between_cleans configured and a known last-cleaned
timestamp whose age reaches the maximum, evaluate returns IMMEDIATE for
every dirty count, 0 included. -/
theorem cleaning_time_rule_dominates (p : DefaultCleaningPolicy)
    (mt last now dirty : Int)
    (hm : p.max_time_between_cleans = some mt)
    (h : now - last ≥ mt) :
    p.evaluate dirty (some last) now = CleaningAction.IMMEDIATE := by
  unfold DefaultCleaningPolicy.evaluate DefaultCleaningPolicy.timeDue
  rw [hm]
  simp [h]

/-- Witness for C7: max interval 10, last cleaned at 0, now 10 and
dirty_count 0 still gives IMMEDIATE. -/
theorem cleaning_time_rule_dominates_witness :
    DefaultCleaningPolicy.max_time_between_cleans ⟨80, 120, some 10⟩ =
      some 10 ∧
    (10 : Int) - 0 ≥ 10 ∧
    DefaultCleaningPolicy.evaluate ⟨80, 120, some 10⟩ 0 (some 0) 10 =
      CleaningAction.IMMEDIATE :=
  ⟨rfl, by decide,
    cleaning_time_rule_dominates ⟨80, 120, some 10⟩ 10 0 10 0 rfl (by decide)⟩

-- Sufficiency extracted from an OK brew decision, and the resulting
-- success of the consume calls inside brew.

lemma can_brew_ok_sufficient (p : DefaultBrewPolicy) (recipe : CoffeeRecipe)
    (w b : Int) (ms : Option (List (String × Int)))
    (h : p.can_brew recipe w b ms = BrewDecision.OK) :
    (recipe.requires_water = true →
      0 < recipe.water_ml ∧ recipe.water_ml ≤ w) ∧
    (recipe.requires_beans = true →
      0 < recipe.beans_g ∧ recipe.beans_g ≤ b) := by
  constructor
  · intro hw
    have hw' : 0 < recipe.water_ml := by
      have h2 := hw
      unfold CoffeeRecipe.requires_water at h2
      exact of_decide_eq_true h2
    refine ⟨hw', ?_⟩
    by_contra hc
    push_neg at hc
    unfold DefaultBrewPolicy.can_brew at h
    simp only [] at h
    split at h
    · rename_i hC1
      simp_all
    · split at h
      · exact absurd h (by decide)
      · rename_i hC1 hC2
        exact absurd ⟨hw, hc⟩ hC2
  · intro hb
    have hb' : 0 < recipe.beans_g := by
      have h2 := hb
      unfold CoffeeRecipe.requires_beans at h2
      exact of_decide_eq_true h2
    refine ⟨hb', ?_⟩
    by_contra hc
    push_neg at hc
    unfold DefaultBrewPolicy.can_brew at h
    simp only [] at h
    split at h
    · rename_i hC1
      simp_all
    · split at h
      · exact absurd h (by decide)
      · split at h
        · exact absurd h (by decide)
        · rename_i hC1 hC2 hC3
          exact absurd ⟨hb, hc⟩ hC3

lemma consume_water_ok_of_sufficient (t : WaterTank) (a : Int)
    (h1 : 0 < a) (h2 : a ≤ t.current_level) :
    t.consume_water a =
      Except.ok { t with current_level := t.current_level - a } := by
  unfold WaterTank.consume_water
  have c1 : ¬ a ≤ 0 := by omega
  have c2 : t.current_level - a ≥ 0 := by omega
  simp [c1, c2]

lemma consume_beans_ok_of_sufficient (b : BeanContainer) (a : Int)
    (h1 : 0 < a) (h2 : a ≤ b.current_grams) :
    b.consume_beans a =
      Except.ok { b with current_grams := b.current_grams - a } := by
  unfold BeanContainer.consume_beans
  have c1 : ¬ a ≤ 0 := by omega
  have c2 : b.current_grams - a ≥ 0 := by omega
  simp [c1, c2]

lemma brew_not_ok_spec (m : SimpleCoffeeMachine) (recipe : CoffeeRecipe)
    (now : Int) (d : BrewDecision)
    (ha : m.active_recipe = some recipe)
    (hd : m.brew_policy.can_brew recipe m.water_tank.current_level
      m.bean_container.current_level (some [("dirty_count", m.dirty_count)]) = d)
    (hne : d ≠ BrewDecision.OK) :
    m.brew now = Except.ok ({ m with state := d.name }, d) := by
  unfold SimpleCoffeeMachine.brew
  rw [ha]
  simp only [hd]
  rw [if_neg hne]

lemma brew_ok_spec (m : SimpleCoffeeMachine) (recipe : CoffeeRecipe)
    (now : Int)
    (ha : m.active_recipe = some recipe)
    (hok : m.brew_policy.can_brew recipe m.water_tank.current_level
      m.bean_container.current_level (some [("dirty_count", m.dirty_count)]) =
      BrewDecision.OK) :
    ∃ m', m.brew now = Except.ok (m', BrewDecision.OK) ∧
      m'.water_tank.current_level = m.water_tank.current_level -
        (if recipe.requires_water then recipe.water_ml else 0) ∧
      m'.water_tank.maximum_level = m.water_tank.maximum_level ∧
      m'.bean_container.current_level = m.bean_container.current_level -
        (if recipe.requires_beans then recipe.beans_g else 0) ∧
      m'.bean_container.maximum_level = m.bean_container.maximum_level ∧
      m'.dirty_count = m.dirty_count + 1 ∧
      (m.cleaning_policy.evaluate (m.dirty_count + 1) m.last_cleaned_ts now =
          CleaningAction.IMMEDIATE →
        m'.state = "NEEDS_CLEANING" ∧
        m'.cleaning_scheduled = m.cleaning_scheduled) ∧
      (m.cleaning_policy.evaluate (m.dirty_count + 1) m.last_cleaned_ts now =
          CleaningAction.SCHEDULE →
        m'.state = "IDLE" ∧ m'.cleaning_scheduled = true) ∧
      (m.cleaning_policy.evaluate (m.dirty_count + 1) m.last_cleaned_ts now =
          CleaningAction.NO_ACTION →
        m'.state = "IDLE" ∧
        m'.cleaning_scheduled = m.cleaning_scheduled) := by
  obtain ⟨hsw, hsb⟩ := can_brew_ok_sufficient m.brew_policy recipe
    m.water_tank.current_level m.bean_container.current_level
    (some [("dirty_count", m.dirty_count)]) hok
  have hwt : (if recipe.requires_water then
      match m.water_tank.consume_water recipe.water_ml with
      | Except.ok t => Except.ok t
      | Except.error e => Except.error (MachineError.water e)
      else Except.ok m.water_tank) =
      Except.ok (⟨m.water_tank.maximum_level, m.water_tank.current_level -
        (if recipe.requires_water then recipe.water_ml else 0)⟩ : WaterTank) := by
    cases hw : recipe.requires_water with
    | true =>
      have hcw := consume_water_ok_of_sufficient m.water_tank recipe.water_ml
        (hsw hw).1 (hsw hw).2
      simp [hw, hcw]
    | false =>
      simp [hw]
  have hbc : (if recipe.requires_beans then
      match m.bean_container.consume_beans recipe.beans_g with
      | Except.ok c => Except.ok c
      | Except.error e => Except.error (MachineError.beans e)
      else Except.ok m.bean_container) =
      Except.ok (⟨m.bean_container.maximum_grams, m.bean_container.current_grams -
        (if recipe.requires_beans then recipe.beans_g else 0)⟩ : BeanContainer) := by
    cases hb : recipe.requires_beans with
    | true =>
      have hcb := consume_beans_ok_of_sufficient m.bean_container recipe.beans_g
        (hsb hb).1 (hsb hb).2
      simp [hb, hcb]
    | false =>
      simp [hb]
  cases hact : m.cleaning_policy.evaluate (m.dirty_count + 1) m.last_cleaned_ts now with
  | IMMEDIATE =>
    refine ⟨{ m with
        water_tank := ⟨m.water_tank.maximum_level,
          m.water_tank.current_level -
            (if recipe.requires_water then recipe.water_ml else 0)⟩
        bean_container := ⟨m.bean_container.maximum_grams,
          m.bean_container.current_grams -
            (if recipe.requires_beans then recipe.beans_g else 0)⟩
        dirty_count := m.dirty_count + 1
        state := "NEEDS_CLEANING" },
      ?_, by simp, by simp,
      by simp [BeanContainer.current_level],
      by simp [BeanContainer.maximum_level],
      by simp, ?_, ?_, ?_⟩
    · unfold SimpleCoffeeMachine.brew
      rw [ha]
      simp [hok, hwt, hbc, hact]
    · intro _
      exact ⟨rfl, rfl⟩
    · intro hcon
      exact absurd hcon (by decide)
    · intro hcon
      exact absurd hcon (by decide)
  | SCHEDULE =>
    refine ⟨{ m with
        water_tank := ⟨m.water_tank.maximum_level,
          m.water_tank.current_level -
            (if recipe.requires_water then recipe.water_ml else 0)⟩
        bean_container := ⟨m.bean_container.maximum_grams,
          m.bean_container.current_grams -
            (if recipe.requires_beans then recipe.beans_g else 0)⟩
        dirty_count := m.dirty_count + 1
        cleaning_scheduled := true
        state := "IDLE" },
      ?_, by simp, by simp,
      by simp [BeanContainer.current_level],
      by simp [BeanContainer.maximum_level],
      by simp, ?_, ?_, ?_⟩
    · unfold SimpleCoffeeMachine.brew
      rw [ha]
      simp [hok, hwt, hbc, hact]
    · intro hcon
      exact absurd hcon (by decide)
    · intro _
      exact ⟨rfl, rfl⟩
    · intro hcon
      exact absurd hcon (by decide)
  | NO_ACTION =>
    refine ⟨{ m with
        water_tank := ⟨m.water_tank.maximum_level,
          m.water_tank.current_level -
            (if recipe.requires_water then recipe.water_ml else 0)⟩
        bean_container := ⟨m.bean_container.maximum_grams,
          m.bean_container.current_grams -
            (if recipe.requires_beans then recipe.beans_g else 0)⟩
        dirty_count := m.dirty_count + 1
        state := "IDLE" },
      ?_, by simp, by simp,
      by simp [BeanContainer.current_level],
      by simp [BeanContainer.maximum_level],
      by simp, ?_, ?_, ?_⟩
    · unfold SimpleCoffeeMachine.brew
      rw [ha]
      simp [hok, hwt, hbc, hact]
    · intro hcon
      exact absurd hcon (by decide)
    · intro hcon
      exact absurd hcon (by decide)
    · intro _
      exact ⟨rfl, rfl⟩

/-- C9: whenever can_brew returns OK against the machine's current levels,
the consume calls inside brew cannot fail: a required resource has a
positive requirement (the amount is positive exactly when the resource is
required) covered by the available level, each consume returns a success,
and brew itself returns OK without raising. -/
theorem brew_consume_cannot_fail (m : SimpleCoffeeMachine)
    (recipe : CoffeeRecipe) (now : Int)
    (ha : m.active_recipe = some recipe)
    (hok : m.brew_policy.can_brew recipe m.water_tank.current_level
      m.bean_container.current_level (some [("dirty_count", m.dirty_count)]) =
      BrewDecision.OK) :
    (recipe.requires_water = true ↔ 0 < recipe.water_ml) ∧
    (recipe.requires_beans = true ↔ 0 < recipe.beans_g) ∧
    (recipe.requires_water = true →
      recipe.water_ml ≤ m.water_tank.current_level ∧
      ∃ t', m.water_tank.consume_water recipe.water_ml = Except.ok t') ∧
    (recipe.requires_beans = true →
      recipe.beans_g ≤ m.bean_container.current_level ∧
      ∃ c', m.bean_container.consume_beans recipe.beans_g = Except.ok c') ∧
    (∃ m', m.brew now = Except.ok (m', BrewDecision.OK)) := by
  obtain ⟨hsw, hsb⟩ := can_brew_ok_sufficient m.brew_policy recipe
    m.water_tank.current_level m.bean_container.current_level
    (some [("dirty_count", m.dirty_count)]) hok
  refine ⟨?_, ?_, ?_, ?_, ?_⟩
  · simp [CoffeeRecipe.requires_water]
  · simp [CoffeeRecipe.requires_beans]
  · intro hw
    obtain ⟨h1, h2⟩ := hsw hw
    exact ⟨h2, _,
      consume_water_ok_of_sufficient m.water_tank recipe.water_ml h1 h2⟩
  · intro hb
    obtain ⟨h1, h2⟩ := hsb hb
    exact ⟨h2, _,
      consume_beans_ok_of_sufficient m.bean_container recipe.beans_g h1 h2⟩
  · obtain ⟨m', h1, hrest⟩ := brew_ok_spec m recipe now ha hok
    exact ⟨m', h1⟩

/-- Witness for C9: for the Scenario C machine (water 150/500, beans 50/500,
espresso selected, dirty_count 0) the decision is OK and brew succeeds. -/
theorem brew_consume_cannot_fail_witness :
    scenarioC.active_recipe = some espresso ∧
    scenarioC.brew_policy.can_brew espresso scenarioC.water_tank.current_level
      scenarioC.bean_container.current_level
      (some [("dirty_count", scenarioC.dirty_count)]) = BrewDecision.OK ∧
    (∃ m', scenarioC.brew 0 = Except.ok (m', BrewDecision.OK)) ∧
    scenarioC.water_tank.consume_water espresso.water_ml =
      Except.ok ⟨500, 120⟩ :=
  ⟨rfl, by decide,
    (brew_consume_cannot_fail scenarioC espresso 0 rfl (by decide)).2.2.2.2,
    by decide⟩

/-- C1: for every machine with an active recipe, brew follows the policy
decision. A non-OK decision only sets state to the decision's name and
returns the decision, leaving both containers and dirty_count unchanged.
An OK decision consumes recipe.water_ml from the tank exactly when the
recipe requires water and recipe.beans_g from the container exactly when it
requires beans, increments dirty_count by 1, evaluates the cleaning policy
on the new count and sets state to NEEDS_CLEANING on IMMEDIATE, the
scheduled flag plus IDLE on SCHEDULE, and IDLE on NO_ACTION, returning OK. -/
theorem brew_contract (m : SimpleCoffeeMachine) (recipe : CoffeeRecipe)
    (now : Int) (ha : m.active_recipe = some recipe) :
    (∀ d, m.brew_policy.can_brew recipe m.water_tank.current_level
        m.bean_container.current_level
        (some [("dirty_count", m.dirty_count)]) = d →
      d ≠ BrewDecision.OK →
      ∃ m', m.brew now = Except.ok (m', d) ∧
        m'.water_tank = m.water_tank ∧
        m'.bean_container = m.bean_container ∧
        m'.dirty_count = m.dirty_count ∧
        m'.state = d.name) ∧
    (m.brew_policy.can_brew recipe m.water_tank.current_level
        m.bean_container.current_level
        (some [("dirty_count", m.dirty_count)]) = BrewDecision.OK →
      ∃ m', m.brew now = Except.ok (m', BrewDecision.OK) ∧
        m'.water_tank.current_level = m.water_tank.current_level -
          (if recipe.requires_water then recipe.water_ml else 0) ∧
        m'.bean_container.current_level = m.bean_container.current_level -
          (if recipe.requires_beans then recipe.beans_g else 0) ∧
        m'.dirty_count = m.dirty_count + 1 ∧
        (m.cleaning_policy.evaluate (m.dirty_count + 1) m.last_cleaned_ts now =
            CleaningAction.IMMEDIATE → m'.state = "NEEDS_CLEANING") ∧
        (m.cleaning_policy.evaluate (m.dirty_count + 1) m.last_cleaned_ts now =
            CleaningAction.SCHEDULE →
          m'.cleaning_scheduled = true ∧ m'.state = "IDLE") ∧
        (m.cleaning_policy.evaluate (m.dirty_count + 1) m.last_cleaned_ts now =
            CleaningAction.NO_ACTION → m'.state = "IDLE")) := by
  constructor
  · intro d hd hne
    exact ⟨{ m with state := d.name },
      brew_not_ok_spec m recipe now d ha hd hne, rfl, rfl, rfl, rfl⟩
  · intro hok
    obtain ⟨m', h1, h2, h3, h4, h5, h6, h7, h8, h9⟩ :=
      brew_ok_spec m recipe now ha hok
    exact ⟨m', h1, h2, h4, h6, fun h => (h7 h).1,
      fun h => ⟨(h8 h).2, (h8 h).1⟩, fun h => (h9 h).1⟩

/-- Witness for C1: Scenario C — water 150/500, beans 50/500, default
policies, espresso(30, 8) selected: brew returns OK, water 120, beans 42,
dirty_count 1, state IDLE. -/
theorem brew_contract_witness :
    scenarioC.active_recipe = some espresso ∧
    (∃ m', scenarioC.brew 0 = Except.ok (m', BrewDecision.OK) ∧
      m'.water_tank.current_level = 120 ∧
      m'.bean_container.current_level = 42 ∧
      m'.dirty_count = 1 ∧ m'.state = "IDLE") ∧
    scenarioC.brew 0 = Except.ok ({ scenarioC with
        water_tank := ⟨500, 120⟩
        bean_container := ⟨500, 42⟩
        dirty_count := 1
        state := "IDLE" }, BrewDecision.OK) := by
  refine ⟨rfl, ?_, by decide⟩
  obtain ⟨m', h1, h2, h3, h4, h5, h6, h7⟩ :=
    (brew_contract scenarioC espresso 0 rfl).2 (by decide)
  exact ⟨m', h1, h2.trans (by decide), h3.trans (by decide),
    h4.trans (by decide), h7 (by decide)⟩
